import Mathlib

/-!
Verification of the process supervision layer and the Playit tunnel state
machine of the mc-server-termux repository.

The development shallowly embeds the relevant code:

* `src/utils/process.py` (`ProcessManager`): the pid-file registry.  The
  on-disk pid file and the operating system's view of live process ids are
  modelled by the state record `PidFs`; `os.kill(pid, 0)` probing is the
  `live` field.  The nondeterministic outcome of the SIGTERM/SIGKILL wait
  inside `stop_process` is supplied by the environment as a `TermBehavior`
  value (`alreadyGone` models a `ProcessLookupError` raised by the initial
  SIGTERM, `otherError` the generic `except Exception` branch).

* `src/core/playit.py` (`PlayitManager`): the tunnel manager.  The
  manager's claim-relevant fields are the record `PlayitManager`; the log
  file, pid file and persisted state file are the record `FS`.  `start`'s
  polling loop consumes a list of `Tick`s supplied by the environment: each
  tick says whether `process.poll()` reported an exit and what output the
  non-blocking pipe scan appended to the (previously truncated) log before
  that iteration's detection pass.  An exhausted tick list models the
  `timeout` branch.  A raised `FileNotFoundError` is the `StartResult.exc`
  value.  The detection helpers `detect_claim_url` and
  `detect_tunnel_address` implement the regex and substring scans of the
  source over `List Char` (the regexes involved are the literal patterns
  `https://playit.gg/claim/[a-zA-Z0-9]+` and `tcp://[^\s]+`, which reduce
  to prefix matching plus a greedy character-class run).
-/

/-! ## Pid parsing: `int(pid_file.read_text().strip())` -/

/-- ASCII whitespace recognised by Python's `str.strip` / `\s`
(space, tab, newline, carriage return, vertical tab, form feed). -/
def isSpaceChar (c : Char) : Bool :=
  c = ' ' || c = '\t' || c = '\n' || c = '\r' || c = '\x0b' || c = '\x0c'

/-- Python `str.strip()`: drop whitespace from both ends. -/
def pyStrip (cs : List Char) : List Char :=
  ((cs.dropWhile isSpaceChar).reverse.dropWhile isSpaceChar).reverse

/-- Decimal value of a digit run; fails on any non-digit character. -/
def digitsVal : List Char → Nat → Option Nat
  | [], acc => some acc
  | c :: cs, acc =>
      if c.isDigit then digitsVal cs (acc * 10 + (c.toNat - 48)) else none

/-- A nonempty all-digit run parsed as a natural number. -/
def parseDigits (cs : List Char) : Option Nat :=
  if cs.isEmpty then none else digitsVal cs 0

/-- Model of Python `int(s.strip())` as used on pid files: optional sign,
then decimal digits; anything else is a `ValueError`, i.e. `none`.
(Underscore digit grouping, accepted by Python, is not modelled; pid files
are written by `save_pid` as plain decimal.) -/
def parsePid (s : String) : Option Int :=
  match pyStrip s.data with
  | [] => none
  | '+' :: ds => (parseDigits ds).map (fun n => (n : Int))
  | '-' :: ds => (parseDigits ds).map (fun n => -(n : Int))
  | ds => (parseDigits ds).map (fun n => (n : Int))

/-! ## ProcessManager (src/utils/process.py) -/

/-- State seen by one `ProcessManager` call: the pid file for the service
(`none` = absent) and the OS's answer to the signal-0 existence probe
`os.kill(pid, 0)` (`live pid = false` models `ProcessLookupError`/`OSError`). -/
structure PidFs where
  file : Option String
  live : Int → Bool

/-- `ProcessManager.is_running` (src/utils/process.py lines 17-39): absent
file is `False`; otherwise parse the pid and probe; on `ValueError`,
`ProcessLookupError` or `OSError` delete the pid file and return `False`. -/
def is_running (fs : PidFs) : Bool × PidFs :=
  match fs.file with
  | none => (false, fs)
  | some c =>
      match parsePid c with
      | none => (false, { fs with file := none })
      | some pid =>
          if fs.live pid then (true, fs) else (false, { fs with file := none })

/-- `ProcessManager.get_pid` (lines 41-62): same probing contract as
`is_running`, returning the pid instead of a boolean. -/
def get_pid (fs : PidFs) : Option Int × PidFs :=
  match fs.file with
  | none => (none, fs)
  | some c =>
      match parsePid c with
      | none => (none, { fs with file := none })
      | some pid =>
          if fs.live pid then (some pid, fs) else (none, { fs with file := none })

/-- `ProcessManager.save_pid` (lines 64-74): write the decimal pid. -/
def save_pid (fs : PidFs) (pid : Int) : PidFs :=
  { fs with file := some (toString pid) }

/-- Environment-chosen outcome of the signalling section of `stop_process`:
`alreadyGone` = the initial SIGTERM raises `ProcessLookupError`;
`diesWithin` = the process exits during the 0.5s poll window;
`survives` = still alive when `timeout` elapses;
`otherError` = some other exception (e.g. `PermissionError`) is raised. -/
inductive TermBehavior where
  | alreadyGone
  | diesWithin
  | survives
  | otherError
deriving DecidableEq

/-- `ProcessManager.stop_process` (lines 76-123): `get_pid` first (which
self-heals stale files); `None` means already stopped, success.  Otherwise
SIGTERM, poll until exit or timeout, then SIGKILL if `force`; every path
that observed the process gone (or killed it) unlinks the pid file with
`missing_ok=True` and returns `True`; `force=False` with a surviving
process returns `False`; a non-lookup exception returns `False`. -/
def stop_process (fs : PidFs) (force : Bool) (beh : TermBehavior) : Bool × PidFs :=
  match get_pid fs with
  | (none, fs1) => (true, fs1)
  | (some pid, fs1) =>
      match beh with
      | TermBehavior.alreadyGone => (true, { fs1 with file := none })
      | TermBehavior.diesWithin =>
          (true, { fs1 with
                   file := none
                   live := fun q => if q = pid then false else fs1.live q })
      | TermBehavior.survives =>
          if force then
            (true, { fs1 with
                     file := none
                     live := fun q => if q = pid then false else fs1.live q })
          else (false, fs1)
      | TermBehavior.otherError => (false, fs1)

/-! ## Detection scans (src/core/playit.py lines 129-217) -/

/-- Longest leading run of `[a-zA-Z0-9]` characters (the greedy
character-class tail of the claim-URL regex). -/
def takeAlnum : List Char → List Char
  | [] => []
  | c :: cs => if c.isAlpha || c.isDigit then c :: takeAlnum cs else []

/-- The literal part of the claim-URL regex. -/
def claimPat : List Char := ("https://playit.gg/claim/").data

/-- Match of the claim-URL regex anchored at the current position:
the literal head followed by a nonempty alphanumeric token. -/
def matchClaimAt (cs : List Char) : Option (List Char) :=
  if claimPat.isPrefixOf cs then
    let tok := takeAlnum (cs.drop claimPat.length)
    if tok.isEmpty then none else some (claimPat ++ tok)
  else none

/-- Leftmost match of the claim-URL regex (`re.findall(...)[0]`). -/
def findClaim : List Char → Option (List Char)
  | [] => none
  | c :: cs =>
      match matchClaimAt (c :: cs) with
      | some u => some u
      | none => findClaim cs

/-- Longest leading run of non-whitespace characters (the greedy
tail of the address regex). -/
def takeNonSpace : List Char → List Char
  | [] => []
  | c :: cs => if isSpaceChar c then [] else c :: takeNonSpace cs

/-- The literal part of the address regex. -/
def tcpPat : List Char := ("tcp://").data

/-- Match of the address regex anchored at the current position:
the literal head followed by at least one non-whitespace character. -/
def matchTcpAt (cs : List Char) : Option (List Char) :=
  if tcpPat.isPrefixOf cs then
    let tok := takeNonSpace (cs.drop tcpPat.length)
    if tok.isEmpty then none else some (tcpPat ++ tok)
  else none

/-- Leftmost match of the address regex. -/
def findTcp : List Char → Option (List Char)
  | [] => none
  | c :: cs =>
      match matchTcpAt (c :: cs) with
      | some u => some u
      | none => findTcp cs

/-- Python `str.lower()` on the ASCII content the scans look at. -/
def lowerChars (cs : List Char) : List Char := cs.map Char.toLower

/-- Python substring containment `pat in hay`. -/
def hasSub (pat : List Char) : List Char → Bool
  | [] => pat.isEmpty
  | c :: cs => pat.isPrefixOf (c :: cs) || hasSub pat cs

/-- Python `str.split` on a newline separator: `splitNl "".data = [[]]`,
and every `'\n'` starts a new (possibly empty) piece. -/
def splitNl : List Char → List (List Char)
  | [] => [[]]
  | c :: cs =>
      if c = '\n' then [] :: splitNl cs
      else
        match splitNl cs with
        | [] => [[c]]
        | l :: ls => (c :: l) :: ls

/-- `PlayitManager._detect_claim_url` (lines 129-181) applied to the
accumulated log content: method 1 runs the claim-URL regex over the whole
content; method 2 rescans, line by line, the lines that mention both
"claim" (case-insensitively) and "playit.gg".  Method 3 (the non-blocking
pipe read) only appends fresh child output to the log before rescanning;
in this embedding that appended output is supplied per tick by the
environment, so the scan itself is over the given content.  Returns the
URL stored into `self.claim_url` when detection succeeds. -/
def detect_claim_url (logContent : String) : Option String :=
  match findClaim logContent.data with
  | some u => some (String.mk u)
  | none =>
      (splitNl logContent.data).findSome? (fun line =>
        if hasSub (("claim").data) (lowerChars line) &&
            hasSub (("playit.gg").data) line then
          (findClaim line).map (fun u => String.mk u)
        else none)

/-- The fixed success-indicator phrases of `_detect_tunnel_address`. -/
def successIndicators : List (List Char) :=
  [("agent connected").data, ("tunnel established").data,
   ("tcp://").data, ("connected to playit").data]

/-- `PlayitManager._detect_tunnel_address` (lines 183-217): if any
indicator occurs in the lowercased log content, report the tunnel as
connected and additionally try to extract a `tcp://...` token from the
original (non-lowercased) content; `self.tunnel_address` is only
overwritten when the extraction finds a match, which is why the second
component is an `Option`. -/
def detect_tunnel_address (logContent : String) : Bool × Option String :=
  if successIndicators.any (fun ind => hasSub ind (lowerChars logContent.data)) then
    (true, (findTcp logContent.data).map (fun u => String.mk u))
  else
    (false, none)

/-! ## PlayitManager state (src/core/playit.py) -/

/-- `PlayitState` (lines 16-24). -/
inductive PlayitState where
  | stopped
  | starting
  | waiting_claim
  | connecting
  | connected
  | error
  | reconnecting
deriving DecidableEq

/-- The persisted state file `playit_state.json` as written by
`_save_state` (lines 400-411): the JSON object
`{claim_url, tunnel_address, state, last_update}`. -/
structure StateFileData where
  claim_url : Option String
  tunnel_address : Option String
  state : PlayitState
  last_update : String
deriving DecidableEq

/-- The claim-relevant in-memory fields of `PlayitManager` (lines 30-52).
The process handle, health-monitor thread and path objects are not part
of the sequential data model; process liveness and child output are
supplied by the environment where the operations consult them. -/
structure PlayitManager where
  state : PlayitState
  claim_url : Option String
  tunnel_address : Option String
  reconnect_attempts : Nat
  max_reconnect_attempts : Nat
deriving DecidableEq

/-- `PlayitManager._save_state` (lines 400-411) with the timestamp
supplied by the environment. -/
def saveState (m : PlayitManager) (now : String) : StateFileData :=
  { claim_url := m.claim_url
    tunnel_address := m.tunnel_address
    state := m.state
    last_update := now }

/-- `PlayitManager.__init__` together with `_load_state` (lines 30-52 and
413-437): fields start as `STOPPED`/`None`/0/10, then, when a state file
exists, `claim_url` and `tunnel_address` are seeded from it (`_load_state`
reads no other field back; its push of recovered values into the `.env`
settings store does not touch the manager's fields). -/
def initManager (file : Option StateFileData) : PlayitManager :=
  let m : PlayitManager :=
    { state := PlayitState.stopped
      claim_url := none
      tunnel_address := none
      reconnect_attempts := 0
      max_reconnect_attempts := 10 }
  match file with
  | none => m
  | some d => { m with claim_url := d.claim_url, tunnel_address := d.tunnel_address }

/-! ## start / stop / reconnect (src/core/playit.py lines 54-127, 288-356) -/

/-- One iteration of `start`'s polling loop, as observed from the
environment: whether `process.poll()` reports that the child has exited,
and the child output that the non-blocking pipe scan appends to the log
before this iteration's detection pass. -/
structure Tick where
  exited : Bool
  output : String
deriving DecidableEq

/-- Environment of one `start` call: the answer of the initial
`is_running()` guard, whether the binary path exists, the pid the spawn
produces, the timestamp `_save_state` would record, and the per-iteration
observations; an exhausted list is the `timeout` branch. -/
structure StartEnv where
  alreadyRunning : Bool
  binaryExists : Bool
  pid : Nat
  now : String
  ticks : List Tick
deriving DecidableEq

/-- The manager's three files: `playit.log` content, `playit.pid` content
(`none` = absent) and `playit_state.json` (`none` = absent). -/
structure FS where
  logContent : String
  pidFile : Option String
  stateFile : Option StateFileData
deriving DecidableEq

/-- Result of a `start` call: a returned boolean, or an uncaught
`FileNotFoundError` (`exc`). -/
inductive StartResult where
  | ok (b : Bool)
  | exc
deriving DecidableEq

/-- Everything a `start` call leaves behind: its result, the manager
fields, the files, and whether `self.stop()` was invoked on the way out. -/
structure StartOutcome where
  result : StartResult
  m : PlayitManager
  fs : FS
  stopCalled : Bool
deriving DecidableEq

/-- `PlayitManager.stop` (lines 328-356) restricted to the sequential
data model: the health monitor is signalled, the child is terminated (or
killed), the pid file is unlinked if it exists, the state becomes
`STOPPED`, and `_save_state` persists the resulting fields. -/
def stopFn (now : String) (m : PlayitManager) (fs : FS) : PlayitManager × FS :=
  let m1 := { m with state := PlayitState.stopped }
  (m1, { fs with pidFile := none, stateFile := some (saveState m1 now) })

/-- The polling loop of `PlayitManager.start` (lines 94-121).  Per
iteration: if the child exited, state becomes `ERROR` and `False` is
returned (no `stop()` call); otherwise the pipe scan may have appended
output to the log, and the claim-URL scan runs before the tunnel scan; a
claim hit keeps `WAITING_CLAIM`, stores the URL, persists, returns
`True`; a tunnel hit sets `CONNECTED`, possibly stores the address,
persists, returns `True`.  When the tick budget (the timeout) runs out:
state `ERROR`, then `self.stop()` (which overwrites the state with
`STOPPED` and unlinks the pid file), and `False`. -/
def startLoop (now : String) (m : PlayitManager) (fs : FS) : List Tick → StartOutcome
  | [] =>
      let m1 := { m with state := PlayitState.error }
      let r := stopFn now m1 fs
      { result := StartResult.ok false, m := r.1, fs := r.2, stopCalled := true }
  | t :: ts =>
      if t.exited then
        { result := StartResult.ok false
          m := { m with state := PlayitState.error }
          fs := fs
          stopCalled := false }
      else
        let fs1 := { fs with logContent := fs.logContent ++ t.output }
        match detect_claim_url fs1.logContent with
        | some url =>
            let m1 := { m with state := PlayitState.waiting_claim, claim_url := some url }
            { result := StartResult.ok true
              m := m1
              fs := { fs1 with stateFile := some (saveState m1 now) }
              stopCalled := false }
        | none =>
            let r := detect_tunnel_address fs1.logContent
            if r.1 then
              let newAddr := match r.2 with
                | some a => some a
                | none => m.tunnel_address
              let m1 := { m with state := PlayitState.connected, tunnel_address := newAddr }
              { result := StartResult.ok true
                m := m1
                fs := { fs1 with stateFile := some (saveState m1 now) }
                stopCalled := false }
            else
              startLoop now m fs1 ts

/-- `PlayitManager.start` (lines 54-127): return `True` at once when
already running; raise `FileNotFoundError` when the binary does not exist
(this check precedes the `try` block); otherwise set `STARTING`, truncate
the log file to empty (`self.log_file.write_text("")`), spawn the child,
write its pid to the pid file, set `WAITING_CLAIM` and enter the polling
loop. -/
def start (env : StartEnv) (m : PlayitManager) (fs : FS) : StartOutcome :=
  if env.alreadyRunning then
    { result := StartResult.ok true, m := m, fs := fs, stopCalled := false }
  else if env.binaryExists = false then
    { result := StartResult.exc, m := m, fs := fs, stopCalled := false }
  else
    let m1 := { m with state := PlayitState.starting }
    let fs1 := { fs with logContent := "" }
    let fs2 := { fs1 with pidFile := some (toString env.pid) }
    let m2 := { m1 with state := PlayitState.waiting_claim }
    startLoop env.now m2 fs2 env.ticks

/-- What one `reconnect` call leaves behind: its returned boolean, the
manager fields, whether `self.start()` was reached, and the backoff delay
`wait_time` it computed (`none` when the cap check returned first). -/
structure ReconnectResult where
  ok : Bool
  m : PlayitManager
  startCalled : Bool
  waitTime : Option Nat
deriving DecidableEq

/-- `PlayitManager.reconnect` (lines 288-326), with the nested
`self.start()` call abstracted as the function argument `startFn` (the
real `start` never touches `reconnect_attempts` or
`max_reconnect_attempts`).  The attempt counter is incremented first; if
it now exceeds the cap, state becomes `ERROR` and `False` is returned
without stopping or starting anything.  Otherwise the backoff delay
`min(2 ** attempts, 60)` is computed (the sleep itself has no effect on
the data model), state passes through `RECONNECTING`, `self.stop()` sets
it to `STOPPED`, and `self.start()` runs: on success the counter resets
to zero and `True` is returned, else `False`. -/
def reconnect (startFn : PlayitManager → Bool × PlayitManager) (m : PlayitManager) :
    ReconnectResult :=
  let m1 := { m with reconnect_attempts := m.reconnect_attempts + 1 }
  if m1.reconnect_attempts > m1.max_reconnect_attempts then
    { ok := false
      m := { m1 with state := PlayitState.error }
      startCalled := false
      waitTime := none }
  else
    let waitTime := min (2 ^ m1.reconnect_attempts) 60
    let m2 := { m1 with state := PlayitState.reconnecting }
    let m3 := { m2 with state := PlayitState.stopped }
    let r := startFn m3
    if r.1 then
      { ok := true
        m := { r.2 with reconnect_attempts := 0 }
        startCalled := true
        waitTime := some waitTime }
    else
      { ok := false
        m := r.2
        startCalled := true
        waitTime := some waitTime }

/-- A `start` stand-in that always fails and changes nothing; used to
drive `reconnect` through consecutive failing attempts. -/
def failStart : PlayitManager → Bool × PlayitManager := fun m => (false, m)

/-- `n` consecutive `reconnect` calls (the manager left by each call is
fed to the next), as performed by the health-check loop on sustained
failure. -/
def reconnectIter (startFn : PlayitManager → Bool × PlayitManager) :
    Nat → PlayitManager → PlayitManager
  | 0, m => m
  | Nat.succ n, m => reconnectIter startFn n (reconnect startFn m).m

/-! ## Theorems -/

/-- When `get_pid` answers `None`, the pid file is gone afterwards: either
it was already absent, or the probe failed and the file was unlinked. -/
theorem get_pid_none_file (fs : PidFs) (h : (get_pid fs).1 = none) :
    (get_pid fs).2.file = none := by
  unfold get_pid at *
  cases hf : fs.file with
  | none => simp [hf]
  | some c =>
      cases hpc : parsePid c with
      | none => simp [hf, hpc]
      | some pid =>
          cases hl : fs.live pid with
          | true => simp [hf, hpc, hl] at h
          | false => simp [hf, hpc, hl]

/-- C5: for every identifier file whose liveness probe fails — the file's
content is not a valid process id, or no OS process with that id exists —
`is_running` deletes the identifier file and returns false, and `get_pid`
deletes it and returns absent; a stale identifier file never survives a
single liveness check. -/
theorem stale_pid_file_healed (fs : PidFs) (c : String)
    (hf : fs.file = some c)
    (hprobe : ∀ p : Int, parsePid c = some p → fs.live p = false) :
    (is_running fs).1 = false ∧ (is_running fs).2.file = none ∧
    (get_pid fs).1 = none ∧ (get_pid fs).2.file = none := by
  cases hpc : parsePid c with
  | none => simp [is_running, get_pid, hf, hpc]
  | some p =>
      have hl := hprobe p hpc
      simp [is_running, get_pid, hf, hpc, hl]

/-- Witness for C5: a pid file holding unparsable content is deleted by
one probe, whatever the OS's answer would have been. -/
theorem stale_pid_file_healed_witness :
    (is_running { file := some ("no-pid"), live := fun _ => true }).1 = false ∧
    (is_running { file := some ("no-pid"), live := fun _ => true }).2.file = none ∧
    (get_pid { file := some ("no-pid"), live := fun _ => true }).1 = none ∧
    (get_pid { file := some ("no-pid"), live := fun _ => true }).2.file = none :=
  stale_pid_file_healed { file := some ("no-pid"), live := fun _ => true } ("no-pid") rfl
    (fun p hp => by
      have hn : parsePid ("no-pid") = none := by decide
      rw [hn] at hp
      cases hp)

/-- C6: whenever `stop_process` returns success for a service, a
subsequent `is_running` for that service returns false and the service's
identifier file no longer exists — over every registry state, hence over
every sequence of `save_pid`/`is_running`/`stop_process` calls. -/
theorem stop_success_implies_stopped (fs : PidFs) (force : Bool) (beh : TermBehavior)
    (h : (stop_process fs force beh).1 = true) :
    (stop_process fs force beh).2.file = none ∧
    (is_running (stop_process fs force beh).2).1 = false := by
  have key : (stop_process fs force beh).2.file = none := by
    unfold stop_process at *
    rcases hg : get_pid fs with ⟨o, fs1⟩
    cases o with
    | none =>
        have h1 : (get_pid fs).1 = none := by rw [hg]
        have h2 := get_pid_none_file fs h1
        rw [hg] at h2
        simpa [hg] using h2
    | some pid =>
        cases beh with
        | alreadyGone => simp [hg]
        | diesWithin => simp [hg]
        | survives =>
            cases force with
            | true => simp [hg]
            | false => simp [hg] at h
        | otherError => simp [hg] at h
  refine ⟨key, ?_⟩
  unfold is_running
  rw [key]

/-- Witness for C6: stopping a live process with the default forceful
policy succeeds, after which the file is gone and the probe says dead. -/
theorem stop_success_implies_stopped_witness :
    (stop_process { file := some ("42"), live := fun _ => true } true TermBehavior.diesWithin).1 = true ∧
    (stop_process { file := some ("42"), live := fun _ => true } true TermBehavior.diesWithin).2.file = none ∧
    (is_running (stop_process { file := some ("42"), live := fun _ => true } true TermBehavior.diesWithin).2).1 = false := by
  have h : (stop_process { file := some ("42"), live := fun _ => true } true TermBehavior.diesWithin).1 = true := by
    decide
  exact ⟨h, (stop_success_implies_stopped _ _ _ h).1, (stop_success_implies_stopped _ _ _ h).2⟩

/-- C7: on a service with no live process (`get_pid` probes to `None`),
`stop_process` returns success immediately, a second call returns success
again, and the second call changes nothing. -/
theorem stop_idempotent_when_dead (fs : PidFs) (f1 f2 : Bool) (b1 b2 : TermBehavior)
    (h : (get_pid fs).1 = none) :
    (stop_process fs f1 b1).1 = true ∧
    (stop_process (stop_process fs f1 b1).2 f2 b2).1 = true ∧
    (stop_process (stop_process fs f1 b1).2 f2 b2).2 = (stop_process fs f1 b1).2 := by
  have hfile := get_pid_none_file fs h
  have e1 : stop_process fs f1 b1 = (true, (get_pid fs).2) := by
    unfold stop_process
    rcases hg : get_pid fs with ⟨o, fs1⟩
    rw [hg] at h
    cases o with
    | none => rfl
    | some pid => simp at h
  have hfs1 : (stop_process fs f1 b1).2.file = none := by rw [e1]; exact hfile
  have e2 : get_pid (stop_process fs f1 b1).2 = (none, (stop_process fs f1 b1).2) := by
    unfold get_pid
    rw [hfs1]
  have e3 : stop_process (stop_process fs f1 b1).2 f2 b2 =
      (true, (stop_process fs f1 b1).2) := by
    generalize hX : (stop_process fs f1 b1).2 = X at e2
    unfold stop_process
    rw [e2]
  exact ⟨by rw [e1], by rw [e3], by rw [e3]⟩

/-- Witness for C7: two consecutive stops of a never-started service (no
pid file) both succeed and the second changes nothing. -/
theorem stop_idempotent_when_dead_witness :
    (get_pid { file := none, live := fun _ => true }).1 = none ∧
    (stop_process { file := none, live := fun _ => true } true TermBehavior.survives).1 = true ∧
    (stop_process (stop_process { file := none, live := fun _ => true } true TermBehavior.survives).2 true TermBehavior.survives).1 = true ∧
    (stop_process (stop_process { file := none, live := fun _ => true } true TermBehavior.survives).2 true TermBehavior.survives).2 =
      (stop_process { file := none, live := fun _ => true } true TermBehavior.survives).2 := by
  have h : (get_pid { file := none, live := fun _ => true } : Option Int × PidFs).1 = none := rfl
  have r := stop_idempotent_when_dead { file := none, live := fun _ => true } true true
    TermBehavior.survives TermBehavior.survives h
  exact ⟨h, r.1, r.2.1, r.2.2⟩

/-- Counterexample to C1: with no tunnel already running and the binary
path absent, `start` ends in an uncaught `FileNotFoundError` — it does
not return `False`. -/
theorem start_missing_binary_counterexample :
    (start { alreadyRunning := false, binaryExists := false, pid := 1234, now := "t", ticks := [] }
        (initManager none)
        { logContent := "", pidFile := none, stateFile := none }).result = StartResult.exc ∧
    (start { alreadyRunning := false, binaryExists := false, pid := 1234, now := "t", ticks := [] }
        (initManager none)
        { logContent := "", pidFile := none, stateFile := none }).result ≠ StartResult.ok false := by
  decide

/-- C1 (amended): when the tunnel is not already running and the binary
path does not exist, `start` raises `FileNotFoundError` — an uncaught
exception, not a `False` return — leaving the manager fields and the
files untouched; the check precedes the `try` block, so nothing catches
it. -/
theorem start_missing_binary_raises (env : StartEnv) (m : PlayitManager) (fs : FS)
    (h1 : env.alreadyRunning = false) (h2 : env.binaryExists = false) :
    start env m fs = { result := StartResult.exc, m := m, fs := fs, stopCalled := false } := by
  simp [start, h1, h2]

/-- Witness for C1 (amended) at a concrete environment. -/
theorem start_missing_binary_raises_witness :
    start { alreadyRunning := false, binaryExists := false, pid := 7, now := "t", ticks := [] }
        (initManager none)
        { logContent := "x", pidFile := some ("9"), stateFile := none } =
      { result := StartResult.exc
        m := initManager none
        fs := { logContent := "x", pidFile := some ("9"), stateFile := none }
        stopCalled := false } :=
  start_missing_binary_raises _ _ _ rfl rfl

/-- Counterexample to C2: a manager persisted while `CONNECTED` is
reloaded with in-memory state `STOPPED` — `_load_state` reads back
`claim_url` and `tunnel_address` but never the `state` field, so the
connection state does not survive the round trip. -/
theorem load_state_counterexample :
    (initManager (some (saveState
        { state := PlayitState.connected
          claim_url := some ("https://playit.gg/claim/abc123")
          tunnel_address := some ("tcp://1.2.3.4:25565")
          reconnect_attempts := 0
          max_reconnect_attempts := 10 } ("2024-01-01T00:00:00")))).state ≠
      PlayitState.connected := by
  decide

/-- C2 (amended): reconstructing a manager over a state file written by
`_save_state` restores the two optional fields — `claim_url` and
`tunnel_address` — to the persisted values, but not the connection
state: the fresh manager's state is always `STOPPED` (and its attempt
counter zero), whatever state was persisted. -/
theorem load_state_round_trip (m : PlayitManager) (now : String) :
    (initManager (some (saveState m now))).claim_url = m.claim_url ∧
    (initManager (some (saveState m now))).tunnel_address = m.tunnel_address ∧
    (initManager (some (saveState m now))).state = PlayitState.stopped ∧
    (initManager (some (saveState m now))).reconnect_attempts = 0 :=
  ⟨rfl, rfl, rfl, rfl⟩

/-- Counterexample to C3: with the default cap of 10, eleven consecutive
failing `reconnect` calls leave the attempt counter at 11 — the counter
does exceed the configured maximum. -/
theorem reconnect_counter_counterexample :
    (reconnectIter failStart 11 (initManager none)).max_reconnect_attempts <
      (reconnectIter failStart 11 (initManager none)).reconnect_attempts := by
  decide

/-- C3 (amended): every `reconnect` call increments the attempt counter
by exactly one, so after k consecutive failing calls it equals k and can
grow past the cap of 10; whenever the incremented counter exceeds the
cap, the state becomes `ERROR`, `reconnect` returns failure, and no
automatic `start` is attempted in that call. -/
theorem reconnect_cap_exceeded (startFn : PlayitManager → Bool × PlayitManager)
    (m : PlayitManager)
    (h : m.max_reconnect_attempts < m.reconnect_attempts + 1) :
    (reconnect startFn m).ok = false ∧
    (reconnect startFn m).m.state = PlayitState.error ∧
    (reconnect startFn m).startCalled = false ∧
    (reconnect startFn m).m.reconnect_attempts = m.reconnect_attempts + 1 := by
  simp [reconnect, h]

/-- Witness for C3 (amended): an eleventh attempt past the default cap is
refused without starting anything. -/
theorem reconnect_cap_exceeded_witness :
    (10 : Nat) < 10 + 1 ∧
    (reconnect failStart
        { state := PlayitState.connected
          claim_url := none
          tunnel_address := none
          reconnect_attempts := 10
          max_reconnect_attempts := 10 }).ok = false ∧
    (reconnect failStart
        { state := PlayitState.connected
          claim_url := none
          tunnel_address := none
          reconnect_attempts := 10
          max_reconnect_attempts := 10 }).startCalled = false :=
  ⟨by decide,
   (reconnect_cap_exceeded failStart _ (by decide)).1,
   (reconnect_cap_exceeded failStart _ (by decide)).2.2.1⟩

/-- C4: whenever a reconnect attempt proceeds (the incremented attempt
number n is within the cap), the computed backoff delay is
`min(2 ** n, 60)` seconds; in particular attempt 1 computes 2 seconds and
attempts 6 and 10 compute 60 seconds. -/
theorem reconnect_backoff (startFn : PlayitManager → Bool × PlayitManager)
    (m : PlayitManager)
    (h : m.reconnect_attempts + 1 ≤ m.max_reconnect_attempts) :
    (reconnect startFn m).waitTime = some (min (2 ^ (m.reconnect_attempts + 1)) 60) ∧
    min (2 ^ 1) 60 = 2 ∧ min (2 ^ 6) 60 = 60 ∧ min (2 ^ 10) 60 = 60 := by
  refine ⟨?_, by decide, by decide, by decide⟩
  have hnot : ¬ (m.reconnect_attempts + 1 > m.max_reconnect_attempts) := not_lt.mpr h
  unfold reconnect
  simp only [hnot, if_false]
  rcases hs : startFn { { { m with reconnect_attempts := m.reconnect_attempts + 1 } with
      state := PlayitState.reconnecting } with state := PlayitState.stopped } with ⟨ok, m4⟩
  cases ok <;> simp [hs]

/-- Witness for C4 at the first attempt: the computed delay is 2s. -/
theorem reconnect_backoff_witness :
    (0 : Nat) + 1 ≤ 10 ∧
    (reconnect (fun x => (false, x))
        { state := PlayitState.connected
          claim_url := none
          tunnel_address := none
          reconnect_attempts := 0
          max_reconnect_attempts := 10 }).waitTime = some (min (2 ^ (0 + 1)) 60) :=
  ⟨by decide, (reconnect_backoff (fun x => (false, x)) _ (by decide)).1⟩

/-- Counterexample to C8: when the child exits on the first poll, `start`
returns failure with state `ERROR` but never calls `stop()` — the pid
file written at spawn is still on disk; and on the timeout path `stop()`
is called but overwrites the transient `ERROR` with `STOPPED`, so the
final state is not `Error` there either. -/
theorem start_failure_cleanup_counterexample :
    ((start { alreadyRunning := false, binaryExists := true, pid := 99, now := "t",
              ticks := [{ exited := true, output := "" }] }
        (initManager none)
        { logContent := "old", pidFile := none, stateFile := none }).fs.pidFile = some ("99") ∧
     (start { alreadyRunning := false, binaryExists := true, pid := 99, now := "t",
              ticks := [{ exited := true, output := "" }] }
        (initManager none)
        { logContent := "old", pidFile := none, stateFile := none }).stopCalled = false) ∧
    ((start { alreadyRunning := false, binaryExists := true, pid := 99, now := "t", ticks := [] }
        (initManager none)
        { logContent := "old", pidFile := none, stateFile := none }).m.state = PlayitState.stopped ∧
     PlayitState.stopped ≠ PlayitState.error) := by
  decide

/-- C8 (amended): the two failure paths of `start`'s detection wait
behave differently.  If the child process exits before a claim URL or a
tunnel signature is detected, `start` returns failure with state `ERROR`,
but `stop()` is not invoked and the identifier file is left untouched.
If the wait exhausts the caller-supplied timeout, `start` returns
failure, `stop()` is invoked — removing the identifier file — and
`stop()` overwrites the transiently set `ERROR` so the final state is
`STOPPED`. -/
theorem start_failure_paths (now : String) (m : PlayitManager) (fs : FS)
    (t : Tick) (ts : List Tick) (hex : t.exited = true) :
    ((startLoop now m fs (t :: ts)).result = StartResult.ok false ∧
     (startLoop now m fs (t :: ts)).m.state = PlayitState.error ∧
     (startLoop now m fs (t :: ts)).stopCalled = false ∧
     (startLoop now m fs (t :: ts)).fs.pidFile = fs.pidFile) ∧
    ((startLoop now m fs []).result = StartResult.ok false ∧
     (startLoop now m fs []).stopCalled = true ∧
     (startLoop now m fs []).fs.pidFile = none ∧
     (startLoop now m fs []).m.state = PlayitState.stopped) := by
  constructor
  · simp [startLoop, hex]
  · simp [startLoop, stopFn]

/-- Witness for C8 (amended) at a concrete exited tick. -/
theorem start_failure_paths_witness :
    (Tick.exited { exited := true, output := "boom" } = true) ∧
    (startLoop ("t") (initManager none)
        { logContent := "", pidFile := some ("31"), stateFile := none }
        [{ exited := true, output := "boom" }]).m.state = PlayitState.error ∧
    (startLoop ("t") (initManager none)
        { logContent := "", pidFile := some ("31"), stateFile := none }
        [{ exited := true, output := "boom" }]).fs.pidFile = some ("31") ∧
    (startLoop ("t") (initManager none)
        { logContent := "", pidFile := some ("31"), stateFile := none } []).fs.pidFile = none :=
  ⟨rfl,
   ((start_failure_paths ("t") (initManager none)
      { logContent := "", pidFile := some ("31"), stateFile := none }
      { exited := true, output := "boom" } [] rfl).1).2.1,
   ((start_failure_paths ("t") (initManager none)
      { logContent := "", pidFile := some ("31"), stateFile := none }
      { exited := true, output := "boom" } [] rfl).1).2.2.2,
   ((start_failure_paths ("t") (initManager none)
      { logContent := "", pidFile := some ("31"), stateFile := none }
      { exited := true, output := "boom" } [] rfl).2).2.2.1⟩

/-- C9: a log containing the connection indicator "agent connected" but
no `tcp://` token makes `_detect_tunnel_address` answer true without
extracting an address, and a `start` call observing that output returns
success in state `CONNECTED` with `tunnel_address` still `None` —
reaching `Connected` does not guarantee an extracted tunnel address. -/
theorem connected_without_address :
    detect_tunnel_address ("2024-01-01 agent connected to network") = (true, none) ∧
    (start { alreadyRunning := false, binaryExists := true, pid := 5, now := "t",
             ticks := [{ exited := false, output := "2024-01-01 agent connected to network" }] }
        (initManager none)
        { logContent := "", pidFile := none, stateFile := none }).result = StartResult.ok true ∧
    (start { alreadyRunning := false, binaryExists := true, pid := 5, now := "t",
             ticks := [{ exited := false, output := "2024-01-01 agent connected to network" }] }
        (initManager none)
        { logContent := "", pidFile := none, stateFile := none }).m.state = PlayitState.connected ∧
    (start { alreadyRunning := false, binaryExists := true, pid := 5, now := "t",
             ticks := [{ exited := false, output := "2024-01-01 agent connected to network" }] }
        (initManager none)
        { logContent := "", pidFile := none, stateFile := none }).m.tunnel_address = none := by
  decide

/-- C10: past the already-running and missing-binary guards, `start`
truncates the log file to empty before spawning, so the whole call —
including every claim-URL and tunnel scan of the polling loop — is
independent of whatever a previous run left in the log file; the loop is
entered on exactly the empty log plus the current run's output. -/
theorem start_truncates_log (env : StartEnv) (m : PlayitManager)
    (L1 L2 : String) (pf : Option String) (sf : Option StateFileData)
    (h1 : env.alreadyRunning = false) (h2 : env.binaryExists = true) :
    start env m { logContent := L1, pidFile := pf, stateFile := sf } =
      start env m { logContent := L2, pidFile := pf, stateFile := sf } ∧
    start env m { logContent := L1, pidFile := pf, stateFile := sf } =
      startLoop env.now { m with state := PlayitState.waiting_claim }
        { logContent := "", pidFile := some (toString env.pid), stateFile := sf } env.ticks := by
  constructor <;> simp [start, h1, h2]

/-- Witness for C10: a stale claim URL in the log from a previous run
does not change the outcome of a fresh `start` call. -/
theorem start_truncates_log_witness :
    start { alreadyRunning := false, binaryExists := true, pid := 3, now := "t", ticks := [] }
        (initManager none)
        { logContent := "stale https://playit.gg/claim/zzz", pidFile := none, stateFile := none } =
      start { alreadyRunning := false, binaryExists := true, pid := 3, now := "t", ticks := [] }
        (initManager none)
        { logContent := "", pidFile := none, stateFile := none } :=
  (start_truncates_log
    { alreadyRunning := false, binaryExists := true, pid := 3, now := "t", ticks := [] }
    (initManager none) ("stale https://playit.gg/claim/zzz") ("") none none rfl rfl).1
